import Mathlib

/-!
Verification development for the Circular Economy EU good-practices scraper
(`scrape_ce.py`) and its companion plotting utility (`analyze.py`).

The markup tree, the HTML-parsing collaborator (find / find_all /
get_text(strip=True) / attribute lookup), the extractor, the fetch/retry loop,
the pagination loop, the CSV writer and the plot generator are shallowly
embedded as executable Lean functions.  Python exceptions (`KeyError` on a
missing attribute, `AttributeError` on calling a method of `None`) are
modelled with `Except`; observable side effects (HTTP GET attempts, sleeps)
are modelled as explicit event traces; the filesystem is modelled as an
explicit state value.
-/

/-- Markup node: either a text node or an element with a tag name, the
class attribute (tokenised, as the HTML parser stores it), the remaining
attributes, and the child nodes in document order. -/
inductive Node where
  | text : String → Node
  | elem : String → List String → List (String × String) → List Node → Node

/-- Python `str.strip()`: drop leading and trailing whitespace. -/
def pyStrip (s : String) : String :=
  String.mk (((s.toList.dropWhile Char.isWhitespace).reverse.dropWhile Char.isWhitespace).reverse)

/-- Python `str.startswith(pre)`. -/
def pyStartsWith (s pre : String) : Bool :=
  pre.toList.isPrefixOf s.toList

mutual

/-- All descendants of a node in document (pre-)order, the node itself
excluded, as `Tag.descendants` enumerates them. -/
def descendants : Node → List Node
  | Node.text _ => []
  | Node.elem _ _ _ children => descForest children

/-- Pre-order enumeration of a forest, each root included before its
descendants. -/
def descForest : List Node → List Node
  | [] => []
  | n :: ns => n :: descendants n ++ descForest ns

end

mutual

/-- Text fragments below a node in document order. -/
def nodeTexts : Node → List String
  | Node.text s => [s]
  | Node.elem _ _ _ children => forestTexts children

/-- Text fragments of a forest in document order. -/
def forestTexts : List Node → List String
  | [] => []
  | n :: ns => nodeTexts n ++ forestTexts ns

end

/-- BeautifulSoup `get_text(strip=True)`: strip every text fragment, drop
the ones that become empty, concatenate the rest. -/
def getTextStrip (n : Node) : String :=
  String.join (((nodeTexts n).map pyStrip).filter (fun s => s ≠ ""))

/-- BeautifulSoup class matching: a space-free query matches any one class
token; a query with spaces matches the exact full class attribute value. -/
def classMatches (classes : List String) (query : String) : Bool :=
  classes.contains query || String.intercalate " " classes == query

/-- Does a node match a tag-name query and an optional class query? -/
def nodeMatches (tagName : String) (classQuery : Option String) : Node → Bool
  | Node.text _ => false
  | Node.elem t cls _ _ =>
    t == tagName && (match classQuery with
      | none => true
      | some q => classMatches cls q)

/-- BeautifulSoup `Tag.find`: first matching descendant, `None` if absent. -/
def bsFind (tagName : String) (classQuery : Option String) (n : Node) : Option Node :=
  (descendants n).find? (nodeMatches tagName classQuery)

/-- BeautifulSoup `Tag.find_all`: all matching descendants in document order. -/
def bsFindAll (tagName : String) (classQuery : Option String) (n : Node) : List Node :=
  (descendants n).filter (nodeMatches tagName classQuery)

/-- BeautifulSoup `soup.find_all` over a whole parsed document. -/
def soupFindAll (tagName : String) (classQuery : Option String) (doc : List Node) : List Node :=
  (descForest doc).filter (nodeMatches tagName classQuery)

/-- Python exceptions that the extractor can raise. -/
inductive ParseErr where
  | keyError : String → ParseErr
  | attributeError : ParseErr
deriving DecidableEq, Repr

/-- BeautifulSoup `tag[key]`: the attribute value, raising `KeyError` when
the attribute is absent. -/
def getAttr (n : Node) (key : String) : Except ParseErr String :=
  match n with
  | Node.text _ => Except.error ParseErr.attributeError
  | Node.elem _ _ attrs _ =>
    match attrs.find? (fun kv => kv.1 == key) with
    | some kv => Except.ok kv.2
    | none => Except.error (ParseErr.keyError key)

/-- Structured representation of a single good-practice listing
(`GoodPractice` dataclass, every field defaulting to the sentinel). -/
structure GoodPractice where
  title : String := "N/A"
  description : String := "N/A"
  link : String := "N/A"
  organisation : String := "N/A"
  type_of_organisation : String := "N/A"
  country : String := "N/A"
  language : String := "N/A"
  key_area : String := "N/A"
  sector : String := "N/A"
  scope : String := "N/A"
deriving DecidableEq, Repr

/-- Record as the CSV row dictionary (`GoodPractice.to_row`). -/
def GoodPractice.to_row (r : GoodPractice) : List (String × String) :=
  [("Title", r.title), ("Description", r.description), ("Link", r.link),
   ("Organisation", r.organisation), ("Type of Organisation", r.type_of_organisation),
   ("Country", r.country), ("Language", r.language), ("Key Area", r.key_area),
   ("Sector", r.sector), ("Scope", r.scope)]

/-- Fixed base domain of the platform (`BASE_DOMAIN`). -/
def BASE_DOMAIN : String := "https://circulareconomy.europa.eu"

/-- Card container class used by `parse_practices`. -/
def cardClass : String := "node--type-cecon-good-practice"

/-- Class of the description container (line 69 of `scrape_ce.py`). -/
def descrClass : String :=
  "field-wrapper field field-node--field-cecon-abstract field-name-field-cecon-abstract field-type-text-long field-label-hidden"

/-- Class of the organisation container. -/
def orgClass : String :=
  "field-wrapper field field-node--field-cecon-organisation-company field-name-field-cecon-organisation-company field-type-link field-label-above"

/-- Class of the contributor-category container. -/
def contributorClass : String :=
  "field-wrapper field field-node--field-cecon-contributor-category field-name-field-cecon-contributor-category field-type-entity-reference field-label-above"

/-- Class of the country container. -/
def countryClass : String :=
  "field-wrapper field field-node--field-cecon-country field-name-field-cecon-country field-type-country field-label-above"

/-- Class of the main-language container. -/
def languageClass : String :=
  "field-wrapper field field-node--field-cecon-main-language field-name-field-cecon-main-language field-type-entity-reference field-label-above"

/-- Class of the key-area container. -/
def keyAreaClass : String :=
  "field-wrapper field field-node--field-cecon-key-area field-name-field-cecon-key-area field-type-entity-reference field-label-above"

/-- Class of the sector container. -/
def sectorClass : String :=
  "field-wrapper field field-node--field-cecon-sector field-name-field-cecon-sector field-type-entity-reference field-label-above"

/-- Class of the scope container. -/
def scopeClass : String :=
  "field-wrapper field field-node--field-cecon-scope field-name-field-cecon-scope field-type-entity-reference field-label-above"

/-- Line 64-65: `title = title_tag.get_text(strip=True) if title_tag else "N/A"`. -/
def extractTitle (practice : Node) : String :=
  match bsFind "h2" none practice with
  | some t => getTextStrip t
  | none => "N/A"

/-- Line 66: `link = title_tag.find("a")["href"] if title_tag and
title_tag.find("a") else ""` — the attribute lookup can raise `KeyError`. -/
def extractRawLink (practice : Node) : Except ParseErr String :=
  match bsFind "h2" none practice with
  | some t =>
    match bsFind "a" none t with
    | some a => getAttr a "href"
    | none => Except.ok ""
  | none => Except.ok ""

/-- Line 67: `full_link = f"{BASE_DOMAIN}{link}" if link.startswith("/")
else link or "N/A"`. -/
def resolveLink (link : String) : String :=
  if pyStartsWith link "/" then BASE_DOMAIN ++ link
  else if link == "" then "N/A" else link

/-- Scalar field read from a container found by class: text of the whole
container (used for the description, lines 69-74). -/
def extractDivText (cls : String) (practice : Node) : String :=
  match bsFind "div" (some cls) practice with
  | some t => getTextStrip t
  | none => "N/A"

/-- Scalar field read from the first anchor of a container found by class
(organisation, type of organisation, language); guarded against a missing
container and a missing anchor. -/
def extractAnchorText (cls : String) (practice : Node) : String :=
  match bsFind "div" (some cls) practice with
  | some t =>
    match bsFind "a" none t with
    | some a => getTextStrip a
    | none => "N/A"
  | none => "N/A"

/-- Lines 98-107: the country lookup guards the container but not the inner
`find("div", class_="field-item")`, whose `None` result raises
`AttributeError` when `get_text` is called on it. -/
def extractCountry (practice : Node) : Except ParseErr String :=
  match bsFind "div" (some countryClass) practice with
  | some ct =>
    match bsFind "div" (some "field-item") ct with
    | some d => Except.ok (getTextStrip d)
    | none => Except.error ParseErr.attributeError
  | none => Except.ok "N/A"

/-- Multi-valued field (key area, sector, scope): join the stripped texts of
all anchors below the container with a comma and space; sentinel only when
the container itself is absent. -/
def extractJoinedAnchors (cls : String) (practice : Node) : String :=
  match bsFind "div" (some cls) practice with
  | some t => String.intercalate ", " ((bsFindAll "a" none t).map getTextStrip)
  | none => "N/A"

/-- Function `parse_practice_card`: extract the ten fields of one card.  The raw-link
lookup is evaluated before the country lookup, matching the statement order
of the source, so a `KeyError` from the link surfaces first. -/
def parse_practice_card (practice : Node) : Except ParseErr GoodPractice := do
  let link ← extractRawLink practice
  let country ← extractCountry practice
  Except.ok
    { title := extractTitle practice
      description := extractDivText descrClass practice
      link := resolveLink link
      organisation := extractAnchorText orgClass practice
      type_of_organisation := extractAnchorText contributorClass practice
      country := country
      language := extractAnchorText languageClass practice
      key_area := extractJoinedAnchors keyAreaClass practice
      sector := extractJoinedAnchors sectorClass practice
      scope := extractJoinedAnchors scopeClass practice }

/-- Function `parse_practices`: find all card containers in the parsed document and
extract each one; an exception in any card aborts the whole extraction. -/
def parse_practices (doc : List Node) : Except ParseErr (List GoodPractice) :=
  (soupFindAll "div" (some cardClass) doc).mapM parse_practice_card

deriving instance DecidableEq for Except

/-- Card whose title anchor lacks an `href` attribute. -/
def cardNoHref : Node :=
  Node.elem "div" [cardClass] []
    [Node.elem "h2" [] [] [Node.elem "a" [] [] [Node.text "Title"]]]

/-- Country container class, tokenised. -/
def countryClassList : List String :=
  ["field-wrapper", "field", "field-node--field-cecon-country",
   "field-name-field-cecon-country", "field-type-country", "field-label-above"]

/-- Card whose country container is present but holds no `field-item` child. -/
def cardNoFieldItem : Node :=
  Node.elem "div" [cardClass] []
    [Node.elem "div" countryClassList [] [Node.text "Belgium"]]

/-- Well-formed card with a relative link. -/
def cardRel : Node :=
  Node.elem "div" [cardClass] []
    [Node.elem "h2" [] [] [Node.elem "a" [] [("href", "/p")] [Node.text "T"]]]

/-- Record extracted from `cardRel`. -/
def recRel : GoodPractice :=
  { title := "T", link := "https://circulareconomy.europa.eu/p" }

/-- Key-area container class, tokenised. -/
def keyAreaClassList : List String :=
  ["field-wrapper", "field", "field-node--field-cecon-key-area",
   "field-name-field-cecon-key-area", "field-type-entity-reference", "field-label-above"]

/-- Key-area container with zero anchors. -/
def emptyKeyAreaTag : Node :=
  Node.elem "div" keyAreaClassList [] []

/-- Card whose key-area container is present but holds zero anchors. -/
def cardEmptyKeyArea : Node :=
  Node.elem "div" [cardClass] [] [emptyKeyAreaTag]

/-- Record extracted from `cardEmptyKeyArea`. -/
def recEmptyKA : GoodPractice :=
  { key_area := "" }

/-- Title tag holding only whitespace. -/
def wsTitleTag : Node :=
  Node.elem "h2" [] [] [Node.text "   "]

/-- Card whose title tag holds only whitespace. -/
def cardWsTitle : Node :=
  Node.elem "div" [cardClass] [] [wsTitleTag]

/-- Record extracted from `cardWsTitle`. -/
def recWs : GoodPractice :=
  { title := "" }

/-- Key-area container with two anchors, mirroring the repository's test markup. -/
def keyAreaTagKA : Node :=
  Node.elem "div" keyAreaClassList []
    [Node.elem "div" ["field-item"] []
       [Node.elem "a" [] [("href", "/key-area/waste")] [Node.text "Waste"]],
     Node.elem "div" ["field-item"] []
       [Node.elem "a" [] [("href", "/key-area/recycling")] [Node.text "Recycling"]]]

/-- Card containing `keyAreaTagKA` and nothing else. -/
def cardKA : Node :=
  Node.elem "div" [cardClass] [] [keyAreaTagKA]

/-- Record extracted from `cardKA`. -/
def recKA : GoodPractice :=
  { key_area := "Waste, Recycling" }

/-- Observable side effects of the fetcher: an HTTP GET (URL and attempt
index) and an inter-retry sleep carrying the delay used. -/
inductive Ev where
  | get : String → Nat → Ev
  | sleep : Int → Ev
deriving DecidableEq, Repr

/-- Outcome the network yields to one GET attempt: either a transport-level
`requests.RequestException` or a response with a status code and a parsed
body. -/
inductive FetchOutcome where
  | exn : FetchOutcome
  | resp : Nat → List Node → FetchOutcome

/-- Is the outcome of one attempt treated as a failure by the loop body
(an exception, or a status code other than 200)? -/
def isFail : FetchOutcome → Bool
  | FetchOutcome.exn => true
  | FetchOutcome.resp status _ => status != 200

/-- Body of the retry loop of `get_good_practices` (lines 182-203): attempt
`attempt`, with `fuel` iterations remaining.  A 200 response returns the
parsed body at once; any other response or an exception falls through, and
the loop sleeps `delay` seconds only when `attempt < retriesN`. -/
def fetchLoop (net : Nat → FetchOutcome) (url : String) (retriesN : Nat) (delay : Int) :
    Nat → Nat → List Ev × Except ParseErr (List GoodPractice)
  | _, 0 => ([], Except.ok [])
  | attempt, fuel + 1 =>
    let failCont :=
      if attempt < retriesN then
        let r := fetchLoop net url retriesN delay (attempt + 1) fuel
        (Ev.get url attempt :: Ev.sleep delay :: r.1, r.2)
      else ([Ev.get url attempt], Except.ok [])
    match net attempt with
    | FetchOutcome.resp status body =>
      if status != 200 then failCont
      else ([Ev.get url attempt], parse_practices body)
    | FetchOutcome.exn => failCont

/-- Function `get_good_practices`: `for attempt in range(1, retries + 1)` — the loop
runs `max retries 0` times starting at attempt 1 and returns the empty list
when every attempt fails. -/
def get_good_practices (net : Nat → FetchOutcome) (url : String) (retries : Int) (delay : Int) :
    List Ev × Except ParseErr (List GoodPractice) :=
  fetchLoop net url retries.toNat delay 1 retries.toNat

/-- Event trace of `k` consecutive attempts starting at `attempt`: one GET
per attempt, one sleep of `delay` between consecutive attempts, and no sleep
after the last one. -/
def altTrace (url : String) (delay : Int) : Nat → Nat → List Ev
  | _, 0 => []
  | attempt, 1 => [Ev.get url attempt]
  | attempt, k + 2 =>
    Ev.get url attempt :: Ev.sleep delay :: altTrace url delay (attempt + 1) (k + 1)

/-- Is the event an HTTP GET? -/
def isGetEv : Ev → Bool
  | Ev.get _ _ => true
  | Ev.sleep _ => false

/-- Is the event a sleep? -/
def isSleepEv : Ev → Bool
  | Ev.get _ _ => false
  | Ev.sleep _ => true

/-- Number of GET events in a trace. -/
def countGets (evs : List Ev) : Nat :=
  (evs.filter isGetEv).length

/-- Number of sleep events in a trace. -/
def countSleeps (evs : List Ev) : Nat :=
  (evs.filter isSleepEv).length

/-- Page URL built by `scrape_all_pages`: `f"{base_url}?page={page}"`. -/
def mkPageUrl (baseUrl : String) (page : Nat) : String :=
  baseUrl ++ "?page=" ++ toString page

/-- Body of the pagination loop of `scrape_all_pages` (lines 219-233),
parametrised by the per-page fetch+extract step.  `fuel` bounds the number
of iterations; the loop condition `page < maxPages` is checked exactly as in
the source, so any `fuel ≥ maxPages - page` yields the loop's behaviour. -/
def scrapeLoop (fetchPage : Nat → List Ev × Except ParseErr (List GoodPractice))
    (skip : List Nat) (maxPages : Nat) :
    Nat → Nat → List GoodPractice → List Ev × Except ParseErr (List GoodPractice)
  | _, 0, acc => ([], Except.ok acc)
  | page, fuel + 1, acc =>
    if page < maxPages then
      if page ∈ skip then scrapeLoop fetchPage skip maxPages (page + 1) fuel acc
      else
        match fetchPage page with
        | (evs, Except.error e) => (evs, Except.error e)
        | (evs, Except.ok pageData) =>
          if pageData.isEmpty then (evs, Except.ok acc)
          else
            let r := scrapeLoop fetchPage skip maxPages (page + 1) fuel (acc ++ pageData)
            (evs ++ r.1, r.2)
    else ([], Except.ok acc)

/-- Function `scrape_all_pages` over an abstract per-page fetch step: start at page 0
with an empty accumulator. -/
def scrape_all_pages (fetchPage : Nat → List Ev × Except ParseErr (List GoodPractice))
    (maxPages : Nat) (skip : List Nat) : List Ev × Except ParseErr (List GoodPractice) :=
  scrapeLoop fetchPage skip maxPages 0 maxPages []

/-- Whole-run scrape: each page is fetched through `get_good_practices` at
the page's URL, the network being a function from URL and attempt index to
an outcome. -/
def scrapeFullRun (net : String → Nat → FetchOutcome) (baseUrl : String)
    (maxPages : Nat) (skip : List Nat) (retries delay : Int) :
    List Ev × Except ParseErr (List GoodPractice) :=
  scrape_all_pages
    (fun page =>
      get_good_practices (net (mkPageUrl baseUrl page)) (mkPageUrl baseUrl page) retries delay)
    maxPages skip

/-- Per-page step with the given pure extraction results and no events,
used to state properties of the pagination logic alone. -/
def purePages (pages : Nat → List GoodPractice) :
    Nat → List Ev × Except ParseErr (List GoodPractice) :=
  fun page => ([], Except.ok (pages page))

/-- Filesystem state: the set of existing directories and the files with
their contents (a file is a list of rows, a row a list of cells). -/
structure FS where
  dirs : List (List String)
  files : List (List String × List (List String))
deriving DecidableEq, Repr

/-- All ancestors of a directory path, outermost first (what
`mkdir(parents=True, exist_ok=True)` guarantees to exist afterwards). -/
def ancestorDirs (dir : List String) : List (List String) :=
  (List.range dir.length).map (fun i => dir.take (i + 1))

/-- Create a directory and its ancestors, existing ones left as they are. -/
def mkdirParents (dir : List String) (fs : FS) : FS :=
  { fs with dirs := ancestorDirs dir ++ fs.dirs }

/-- Write (or overwrite) one file. -/
def writeFile (path : List String) (rows : List (List String)) (fs : FS) : FS :=
  { fs with files := (path, rows) :: fs.files.filter (fun f => f.1 ≠ path) }

/-- Look a file up. -/
def readFile (path : List String) (fs : FS) : Option (List (List String)) :=
  (fs.files.find? (fun f => f.1 = path)).map (fun f => f.2)

/-- Header row of the dataset: the column titles of `GoodPractice.to_row`. -/
def csvHeader : List String :=
  ["Title", "Description", "Link", "Organisation", "Type of Organisation",
   "Country", "Language", "Key Area", "Sector", "Scope"]

/-- Function `write_dataset` (lines 238-247): raise `ValueError` on an empty record
sequence before touching the filesystem; otherwise create the destination's
parent directories and write the header row plus one row per record. -/
def write_dataset (records : List GoodPractice) (outputPath : List String) (fs : FS) :
    FS × Except String Unit :=
  if records.isEmpty then (fs, Except.error "No records available to write.")
  else
    let fs1 := mkdirParents outputPath.dropLast fs
    let fs2 := writeFile outputPath
      (csvHeader :: records.map (fun r => r.to_row.map (fun kv => kv.2))) fs1
    (fs2, Except.ok ())

/-- Loaded dataset as the plot generator sees it: its column names. -/
structure DataFrame where
  columns : List String

/-- Path of the image written for one column:
`output_dir / f"{column}_distribution.png"`. -/
def plotFileName (outputDir : List String) (column : String) : List String :=
  outputDir ++ [column ++ "_distribution.png"]

/-- Function `generate_plots` (lines 58-68 of `analyze.py`): per requested column, a
column absent from the dataset yields a warning and is skipped, a present
column yields one saved image.  The result is the pair (warnings, image
files written), each in request order. -/
def generate_plots (df : DataFrame) (columns : List String) (outputDir : List String) :
    List String × List (List String) :=
  match columns with
  | [] => ([], [])
  | c :: rest =>
    if c ∉ df.columns then
      let r := generate_plots df rest outputDir
      (("Column " ++ c ++ " not present in dataset. Skipping.") :: r.1, r.2)
    else
      let r := generate_plots df rest outputDir
      (r.1, plotFileName outputDir c :: r.2)

/-- A successful card extraction assembles exactly the per-field extraction
results: the record's fields equal the dedicated extractor of each field. -/
theorem parse_ok_fields (p : Node) (r : GoodPractice)
    (h : parse_practice_card p = Except.ok r) :
    r.title = extractTitle p ∧
    r.description = extractDivText descrClass p ∧
    (∃ l, extractRawLink p = Except.ok l ∧ r.link = resolveLink l) ∧
    extractCountry p = Except.ok r.country ∧
    r.organisation = extractAnchorText orgClass p ∧
    r.type_of_organisation = extractAnchorText contributorClass p ∧
    r.language = extractAnchorText languageClass p ∧
    r.key_area = extractJoinedAnchors keyAreaClass p ∧
    r.sector = extractJoinedAnchors sectorClass p ∧
    r.scope = extractJoinedAnchors scopeClass p := by
  cases hl : extractRawLink p with
  | error e => simp [parse_practice_card, hl, Bind.bind, Except.bind] at h
  | ok l =>
    cases hc : extractCountry p with
    | error e => simp [parse_practice_card, hl, hc, Bind.bind, Except.bind] at h
    | ok c =>
      simp [parse_practice_card, hl, hc, Bind.bind, Except.bind] at h
      subst h
      exact ⟨rfl, rfl, ⟨l, rfl, rfl⟩, rfl, rfl, rfl, rfl, rfl, rfl, rfl⟩

/-- Claim C1: the extractor is not exception-free.  A card whose title
anchor lacks an `href` attribute raises `KeyError`, a card whose country
container lacks a `field-item` child raises `AttributeError`, and either
exception aborts the extraction of sibling cards as well (the well-formed
sibling `cardRel` parses fine on its own, yet the two-card document fails
as a whole). -/
theorem c1_extractor_raises :
    parse_practice_card cardNoHref = Except.error (ParseErr.keyError "href") ∧
    parse_practice_card cardNoFieldItem = Except.error ParseErr.attributeError ∧
    parse_practices [cardNoHref, cardRel] = Except.error (ParseErr.keyError "href") ∧
    parse_practice_card cardRel = Except.ok recRel := by decide

/-- Claim C2, counterexample: when the key-area container is present but
holds zero anchors, the extracted field is the empty string, not the
sentinel `"N/A"`. -/
theorem c2_counterexample :
    (bsFind "div" (some keyAreaClass) cardEmptyKeyArea).isSome = true ∧
    (bsFindAll "a" none emptyKeyAreaTag).isEmpty = true ∧
    parse_practice_card cardEmptyKeyArea = Except.ok recEmptyKA ∧
    recEmptyKA.key_area = "" ∧
    recEmptyKA.key_area ≠ "N/A" := by decide

/-- Claim C2 (amended): each multi-valued field (key area, sector, scope)
equals the stripped texts of all anchors below the field's container joined
with `", "` in document order whenever the container is present — which is
the empty string, not the sentinel, when the container holds zero anchors —
and equals the sentinel `"N/A"` exactly when the container is absent. -/
theorem c2_multivalued_join (p : Node) (r : GoodPractice)
    (h : parse_practice_card p = Except.ok r) :
    (∀ t, bsFind "div" (some keyAreaClass) p = some t →
       r.key_area = String.intercalate ", " ((bsFindAll "a" none t).map getTextStrip)) ∧
    (bsFind "div" (some keyAreaClass) p = none → r.key_area = "N/A") ∧
    (∀ t, bsFind "div" (some sectorClass) p = some t →
       r.sector = String.intercalate ", " ((bsFindAll "a" none t).map getTextStrip)) ∧
    (bsFind "div" (some sectorClass) p = none → r.sector = "N/A") ∧
    (∀ t, bsFind "div" (some scopeClass) p = some t →
       r.scope = String.intercalate ", " ((bsFindAll "a" none t).map getTextStrip)) ∧
    (bsFind "div" (some scopeClass) p = none → r.scope = "N/A") := by
  obtain ⟨-, -, -, -, -, -, -, hka, hsec, hsc⟩ := parse_ok_fields p r h
  refine ⟨?_, ?_, ?_, ?_, ?_, ?_⟩ <;> intro ht
  · intro hfind; rw [hka, extractJoinedAnchors, hfind]
  · rw [hka, extractJoinedAnchors, ht]
  · intro hfind; rw [hsec, extractJoinedAnchors, hfind]
  · rw [hsec, extractJoinedAnchors, ht]
  · intro hfind; rw [hsc, extractJoinedAnchors, hfind]
  · rw [hsc, extractJoinedAnchors, ht]

/-- Claim C2, witness: on `cardKA` (key-area container with anchors Waste
and Recycling) the amended statement yields the joined field value. -/
theorem c2_multivalued_join_witness :
    recKA.key_area = String.intercalate ", " ((bsFindAll "a" none keyAreaTagKA).map getTextStrip) :=
  (c2_multivalued_join cardKA recKA (by decide)).1 keyAreaTagKA rfl

/-- Claim C3, counterexample: a title tag containing only whitespace is
present, so the extracted title is the empty string after stripping — not
the sentinel — and the record carries an empty field. -/
theorem c3_counterexample :
    parse_practice_card cardWsTitle = Except.ok recWs ∧
    recWs.title = "" ∧
    recWs.title ≠ "N/A" := by decide

/-- Claim C3 (amended), for every scalar field — title, description,
organisation, type of organisation, language and country: text extraction
strips each text fragment, and the sentinel is produced exactly when the
field's node is absent (for the anchor-based fields, when the container or
its inner anchor is absent); a node that is present but whose text is empty
after stripping yields the empty string, so a record field can be the empty
string.  The country case with a present container and a missing
`field-item` child raises and so yields no record at all (claim C1). -/
theorem c3_scalar_strip (p : Node) (r : GoodPractice)
    (h : parse_practice_card p = Except.ok r) :
    (∀ t, bsFind "h2" none p = some t → r.title = getTextStrip t) ∧
    (bsFind "h2" none p = none → r.title = "N/A") ∧
    (∀ d, bsFind "div" (some descrClass) p = some d → r.description = getTextStrip d) ∧
    (bsFind "div" (some descrClass) p = none → r.description = "N/A") ∧
    (∀ t a, bsFind "div" (some orgClass) p = some t → bsFind "a" none t = some a →
       r.organisation = getTextStrip a) ∧
    (bsFind "div" (some orgClass) p = none → r.organisation = "N/A") ∧
    (∀ t, bsFind "div" (some orgClass) p = some t → bsFind "a" none t = none →
       r.organisation = "N/A") ∧
    (∀ t a, bsFind "div" (some contributorClass) p = some t → bsFind "a" none t = some a →
       r.type_of_organisation = getTextStrip a) ∧
    (bsFind "div" (some contributorClass) p = none → r.type_of_organisation = "N/A") ∧
    (∀ t, bsFind "div" (some contributorClass) p = some t → bsFind "a" none t = none →
       r.type_of_organisation = "N/A") ∧
    (∀ t a, bsFind "div" (some languageClass) p = some t → bsFind "a" none t = some a →
       r.language = getTextStrip a) ∧
    (bsFind "div" (some languageClass) p = none → r.language = "N/A") ∧
    (∀ t, bsFind "div" (some languageClass) p = some t → bsFind "a" none t = none →
       r.language = "N/A") ∧
    (∀ t d, bsFind "div" (some countryClass) p = some t →
       bsFind "div" (some "field-item") t = some d → r.country = getTextStrip d) ∧
    (bsFind "div" (some countryClass) p = none → r.country = "N/A") := by
  obtain ⟨hti, hde, -, hco, hor, hty, hla, -, -, -⟩ := parse_ok_fields p r h
  refine ⟨?_, ?_, ?_, ?_, ?_, ?_, ?_, ?_, ?_, ?_, ?_, ?_, ?_, ?_, ?_⟩
  · intro t ht; rw [hti]; simp only [extractTitle, ht]
  · intro ht; rw [hti]; simp only [extractTitle, ht]
  · intro d hd; rw [hde]; simp only [extractDivText, hd]
  · intro hd; rw [hde]; simp only [extractDivText, hd]
  · intro t a ht ha; rw [hor]; simp only [extractAnchorText, ht, ha]
  · intro ht; rw [hor]; simp only [extractAnchorText, ht]
  · intro t ht ha; rw [hor]; simp only [extractAnchorText, ht, ha]
  · intro t a ht ha; rw [hty]; simp only [extractAnchorText, ht, ha]
  · intro ht; rw [hty]; simp only [extractAnchorText, ht]
  · intro t ht ha; rw [hty]; simp only [extractAnchorText, ht, ha]
  · intro t a ht ha; rw [hla]; simp only [extractAnchorText, ht, ha]
  · intro ht; rw [hla]; simp only [extractAnchorText, ht]
  · intro t ht ha; rw [hla]; simp only [extractAnchorText, ht, ha]
  · intro t d ht hd
    simp only [extractCountry, ht, hd, Except.ok.injEq] at hco
    exact hco.symm
  · intro ht
    simp only [extractCountry, ht, Except.ok.injEq] at hco
    exact hco.symm

/-- Claim C3, witness: on `cardWsTitle` the amended statement equates the
title with the stripped text of the whitespace-only tag. -/
theorem c3_scalar_strip_witness :
    recWs.title = getTextStrip wsTitleTag :=
  (c3_scalar_strip cardWsTitle recWs (by decide)).1 wsTitleTag rfl

/-- Claim C7: link resolution.  When the extractor succeeds on a card, a
raw link starting with `/` gets the fixed base domain as a prefix, a
non-empty raw link not starting with `/` passes through unchanged, and when
the card has no title anchor at all the link field is the sentinel. -/
theorem c7_link_resolution (p : Node) (r : GoodPractice)
    (h : parse_practice_card p = Except.ok r) :
    (∀ v, extractRawLink p = Except.ok v → pyStartsWith v "/" = true →
       r.link = BASE_DOMAIN ++ v) ∧
    (∀ v, extractRawLink p = Except.ok v → v ≠ "" → pyStartsWith v "/" = false →
       r.link = v) ∧
    ((bsFind "h2" none p).isNone = true → r.link = "N/A") ∧
    (∀ t, bsFind "h2" none p = some t → (bsFind "a" none t).isNone = true →
       r.link = "N/A") := by
  obtain ⟨-, -, ⟨l, hl, hres⟩, -, -, -, -, -, -, -⟩ := parse_ok_fields p r h
  refine ⟨?_, ?_, ?_, ?_⟩
  · intro v hv hslash
    rw [hl] at hv
    cases hv
    rw [hres, resolveLink, if_pos hslash]
  · intro v hv hne hslash
    rw [hl] at hv
    cases hv
    rw [hres, resolveLink, hslash]
    simp [hne]
  · intro hnone
    rw [Option.isNone_iff_eq_none] at hnone
    simp only [extractRawLink, hnone, Except.ok.injEq] at hl
    rw [hres, ← hl]
    decide
  · intro t hfind hnone
    rw [Option.isNone_iff_eq_none] at hnone
    simp only [extractRawLink, hfind, hnone, Except.ok.injEq] at hl
    rw [hres, ← hl]
    decide

/-- Claim C7, witness: on `cardRel`, whose raw link is `"/p"`, the link
field is the base domain followed by `"/p"`. -/
theorem c7_link_resolution_witness :
    recRel.link = BASE_DOMAIN ++ "/p" :=
  (c7_link_resolution cardRel recRel (by decide)).1 "/p" rfl rfl

/-- Claim C9: for every requested column list, a column absent from the
loaded dataset is skipped with a warning and yields no image file, while
every present requested column — also after a skipped one — yields its
`<column>_distribution.png` under the output directory, in request order. -/
theorem c9_generate_plots (df : DataFrame) (columns : List String) (outputDir : List String) :
    (generate_plots df columns outputDir).2 =
      (columns.filter (fun c => decide (c ∈ df.columns))).map (plotFileName outputDir) ∧
    (generate_plots df columns outputDir).1 =
      (columns.filter (fun c => decide (c ∉ df.columns))).map
        (fun c => "Column " ++ c ++ " not present in dataset. Skipping.") := by
  induction columns with
  | nil => exact ⟨rfl, rfl⟩
  | cons c rest ih =>
    by_cases hc : c ∈ df.columns <;>
      simp [generate_plots, hc, ih.1, ih.2]

/-- Claim C5: `write_dataset` on an empty record sequence fails with the
explicit error and leaves the filesystem exactly as it was (no file, no
directory created); on a non-empty sequence it succeeds, the destination
file afterwards holds the header row plus one row per record, and every
parent directory of the destination exists. -/
theorem c5_write_dataset (records : List GoodPractice) (outputPath : List String) (fs : FS)
    (hne : records ≠ []) :
    (∀ fs0 : FS, write_dataset [] outputPath fs0 =
       (fs0, Except.error "No records available to write.")) ∧
    (write_dataset records outputPath fs).2 = Except.ok () ∧
    readFile outputPath (write_dataset records outputPath fs).1 =
      some (csvHeader :: records.map (fun r => r.to_row.map (fun kv => kv.2))) ∧
    (records.map (fun r => r.to_row.map (fun kv => kv.2))).length = records.length ∧
    (∀ d, d ∈ ancestorDirs outputPath.dropLast →
       d ∈ (write_dataset records outputPath fs).1.dirs) := by
  have hi : records.isEmpty = false := by
    cases records with
    | nil => exact absurd rfl hne
    | cons a l => rfl
  refine ⟨fun fs0 => rfl, ?_, ?_, by simp, ?_⟩
  · simp [write_dataset, hi]
  · simp [write_dataset, hi, readFile, writeFile]
  · intro d hd
    simp [write_dataset, hi, writeFile, mkdirParents]
    exact Or.inl hd

/-- Claim C5, witness: writing one record into an empty filesystem succeeds. -/
theorem c5_write_dataset_witness :
    (write_dataset [recRel] ["out", "data.csv"] { dirs := [], files := [] }).2 =
      Except.ok () :=
  (c5_write_dataset [recRel] ["out", "data.csv"] { dirs := [], files := [] }
    (by decide)).2.1

/-- Pagination loop over pure per-page results: starting at `page` with
accumulator `acc`, if `k` is the first non-skipped page at or after `page`
with an empty result (and `k` is below the cap), the loop returns the
accumulator extended by the results of the non-skipped pages before `k`,
in page order, and produces no events. -/
theorem scrapeLoop_pure_stop (pages : Nat → List GoodPractice) (skip : List Nat)
    (maxPages k : Nat) (hk : k < maxPages) (hks : k ∉ skip) (hempty : pages k = []) :
    ∀ fuel page acc, page ≤ k → k < page + fuel →
    (∀ j, page ≤ j → j < k → j ∉ skip → pages j ≠ []) →
    scrapeLoop (purePages pages) skip maxPages page fuel acc =
      ([], Except.ok (acc ++
        ((List.range' page (k - page)).filter (fun j => decide (j ∉ skip))).flatMap pages)) := by
  intro fuel
  induction fuel with
  | zero => intro page acc h1 h2 _; omega
  | succ f ih =>
    intro page acc hpk hlt hprev
    have hpm : page < maxPages := Nat.lt_of_le_of_lt hpk hk
    by_cases hs : page ∈ skip
    · have hpklt : page < k := by
        rcases Nat.lt_or_eq_of_le hpk with hlt' | heq
        · exact hlt'
        · exact absurd (heq ▸ hs) hks
      have step := ih (page + 1) acc hpklt (by omega)
        (fun j hj1 hj2 hj3 => hprev j (by omega) hj2 hj3)
      have hrange : k - page = (k - (page + 1)) + 1 := by omega
      simp only [scrapeLoop, if_pos hpm, if_pos hs]
      rw [step, hrange, List.range'_succ]
      simp [hs]
    · by_cases hpe : page = k
      · subst hpe
        simp [scrapeLoop, if_pos hpm, hs, purePages, hempty]
      · have hpklt : page < k := by omega
        have hne : pages page ≠ [] := hprev page (Nat.le_refl _) hpklt hs
        have hie : (pages page).isEmpty = false := by
          cases hpp : pages page with
          | nil => exact absurd hpp hne
          | cons a l => rfl
        have step := ih (page + 1) (acc ++ pages page) (by omega) (by omega)
          (fun j hj1 hj2 hj3 => hprev j (by omega) hj2 hj3)
        have hrange : k - page = (k - (page + 1)) + 1 := by omega
        simp only [scrapeLoop, if_pos hpm, if_neg hs, purePages, hie]
        rw [step, hrange, List.range'_succ]
        simp [hs, List.append_assoc]

/-- Claim C4: when page `k` is the first non-skipped page with an empty
extraction result and `k` is below the page cap, `scrape_all_pages` stops
there and returns exactly the records of the non-skipped pages `0..k-1`,
in page order and within-page order. -/
theorem c4_pagination_stop (pages : Nat → List GoodPractice) (skip : List Nat)
    (maxPages k : Nat) (hk : k < maxPages) (hks : k ∉ skip) (hempty : pages k = [])
    (hprev : ∀ j, j < k → j ∉ skip → pages j ≠ []) :
    scrape_all_pages (purePages pages) maxPages skip =
      ([], Except.ok (((List.range k).filter (fun j => decide (j ∉ skip))).flatMap pages)) := by
  have h := scrapeLoop_pure_stop pages skip maxPages k hk hks hempty maxPages 0 []
    (Nat.zero_le _) (by omega) (fun j _ hj2 hj3 => hprev j hj2 hj3)
  rw [scrape_all_pages, h, List.range_eq_range']
  simp

/-- Claim C4, witness: with page 0 yielding one record and page 1 empty,
the run stops at page 1 and returns exactly page 0's record. -/
theorem c4_pagination_stop_witness :
    scrape_all_pages (purePages (fun p => if p = 0 then [recRel] else [])) 3 [] =
      ([], Except.ok [recRel]) := by
  have h := c4_pagination_stop (fun p => if p = 0 then [recRel] else []) [] 3 1
    (by decide) (by decide) (by decide)
    (by decide)
  exact h.trans (by decide)

/-- Pagination loop whose per-page step yields no events and no data:
whatever the page and fuel, it returns the accumulator and no events. -/
theorem scrapeLoop_empty_fetch (skip : List Nat) (maxPages : Nat) :
    ∀ fuel page acc,
    scrapeLoop (fun _ => ([], Except.ok [])) skip maxPages page fuel acc =
      ([], Except.ok acc) := by
  intro fuel
  induction fuel with
  | zero => intro page acc; rfl
  | succ f ih =>
    intro page acc
    by_cases hpm : page < maxPages
    · by_cases hs : page ∈ skip
      · simp only [scrapeLoop, if_pos hpm, if_pos hs]
        exact ih (page + 1) acc
      · simp [scrapeLoop, if_pos hpm, hs]
    · simp [scrapeLoop, hpm]

/-- Claim C10: with `retries ≤ 0` the fetch loop `range(1, retries+1)` is
empty, so `get_good_practices` performs zero GET attempts (empty event
trace) and returns the empty list for every URL and every network, and a
whole-run scrape returns an empty accumulator without any network event. -/
theorem c10_zero_retries (net : String → Nat → FetchOutcome) (baseUrl : String)
    (maxPages : Nat) (skip : List Nat) (retries delay : Int) (h : retries ≤ 0) :
    (∀ (anet : Nat → FetchOutcome) (url : String),
       get_good_practices anet url retries delay = ([], Except.ok [])) ∧
    scrapeFullRun net baseUrl maxPages skip retries delay = ([], Except.ok []) := by
  have hg : ∀ (anet : Nat → FetchOutcome) (url : String),
      get_good_practices anet url retries delay = ([], Except.ok []) := by
    intro anet url
    rw [get_good_practices, Int.toNat_of_nonpos h]
    rfl
  refine ⟨hg, ?_⟩
  rw [scrapeFullRun, scrape_all_pages]
  have hfun : (fun page => get_good_practices (net (mkPageUrl baseUrl page))
      (mkPageUrl baseUrl page) retries delay) =
      (fun _ => (([] : List Ev), Except.ok ([] : List GoodPractice))) :=
    funext (fun page => hg _ _)
  rw [hfun, scrapeLoop_empty_fetch]

/-- Claim C10, witness: with `retries = -1` nothing is fetched and the run
returns the empty accumulator with an empty event trace. -/
theorem c10_zero_retries_witness :
    (∀ (anet : Nat → FetchOutcome) (url : String),
       get_good_practices anet url (-1) 5 = ([], Except.ok [])) ∧
    scrapeFullRun (fun _ _ => FetchOutcome.exn) "b" 3 [] (-1) 5 = ([], Except.ok []) :=
  c10_zero_retries (fun _ _ => FetchOutcome.exn) "b" 3 [] (-1) 5 (by decide)

/-- One loop iteration on a successful (status 200) attempt returns at once
with one GET event and the parsed body. -/
theorem fetchLoop_succ_success (net : Nat → FetchOutcome) (url : String) (retriesN : Nat)
    (delay : Int) (attempt fuel : Nat) (body : List Node)
    (h : net attempt = FetchOutcome.resp 200 body) :
    fetchLoop net url retriesN delay attempt (fuel + 1) =
      ([Ev.get url attempt], parse_practices body) := by
  simp [fetchLoop, h]

/-- One loop iteration on a failing attempt (exception or status ≠ 200)
logs the GET, and either sleeps and recurses (when attempts remain) or
gives up with the empty result. -/
theorem fetchLoop_succ_fail (net : Nat → FetchOutcome) (url : String) (retriesN : Nat)
    (delay : Int) (attempt fuel : Nat) (h : isFail (net attempt) = true) :
    fetchLoop net url retriesN delay attempt (fuel + 1) =
      if attempt < retriesN then
        (Ev.get url attempt :: Ev.sleep delay ::
           (fetchLoop net url retriesN delay (attempt + 1) fuel).1,
         (fetchLoop net url retriesN delay (attempt + 1) fuel).2)
      else ([Ev.get url attempt], Except.ok []) := by
  cases hn : net attempt with
  | exn => simp [fetchLoop, hn]
  | resp status body =>
    have hs : (status != 200) = true := by
      rw [hn] at h
      simpa [isFail] using h
    simp [fetchLoop, hn, hs]

/-- An attempt outcome that is not a failure is a response with status 200. -/
theorem isFail_false_elim (o : FetchOutcome) (h : isFail o = false) :
    ∃ body, o = FetchOutcome.resp 200 body := by
  cases o with
  | exn => simp [isFail] at h
  | resp status body =>
    have h200 : status = 200 := by simpa [isFail] using h
    exact ⟨body, by rw [h200]⟩

/-- The event trace of the retry loop always is `altTrace` for some number
of attempts between 1 and the remaining fuel: GETs separated by single
sleeps, no sleep after the last GET. -/
theorem fetchLoop_shape (net : Nat → FetchOutcome) (url : String) (retriesN : Nat)
    (delay : Int) :
    ∀ fuel attempt, 1 ≤ fuel → attempt + fuel = retriesN + 1 →
    ∃ k, 1 ≤ k ∧ k ≤ fuel ∧
      (fetchLoop net url retriesN delay attempt fuel).1 = altTrace url delay attempt k := by
  intro fuel
  induction fuel with
  | zero => intro attempt h1 _; omega
  | succ f ih =>
    intro attempt h1 hinv
    cases hfail : isFail (net attempt) with
    | false =>
      obtain ⟨body, hb⟩ := isFail_false_elim _ hfail
      refine ⟨1, Nat.le_refl _, by omega, ?_⟩
      rw [fetchLoop_succ_success net url retriesN delay attempt f body hb]
      rfl
    | true =>
      rw [fetchLoop_succ_fail net url retriesN delay attempt f hfail]
      by_cases hlt : attempt < retriesN
      · have hf1 : 1 ≤ f := by omega
        obtain ⟨k', hk1, hk2, htr⟩ := ih (attempt + 1) hf1 (by omega)
        refine ⟨k' + 1, by omega, by omega, ?_⟩
        rw [if_pos hlt]
        have hfst : (Ev.get url attempt :: Ev.sleep delay ::
              (fetchLoop net url retriesN delay (attempt + 1) f).1,
            (fetchLoop net url retriesN delay (attempt + 1) f).2).1 =
            Ev.get url attempt :: Ev.sleep delay ::
              (fetchLoop net url retriesN delay (attempt + 1) f).1 := rfl
        rw [hfst, htr]
        obtain ⟨k'', rfl⟩ : ∃ k'', k' = k'' + 1 := ⟨k' - 1, by omega⟩
        rfl
      · refine ⟨1, Nat.le_refl _, by omega, ?_⟩
        rw [if_neg hlt]
        rfl

/-- When every remaining attempt fails, the loop runs through all of them:
the full alternating trace and the empty-list result. -/
theorem fetchLoop_exhaust (net : Nat → FetchOutcome) (url : String) (retriesN : Nat)
    (delay : Int) :
    ∀ fuel attempt, 1 ≤ fuel → attempt + fuel = retriesN + 1 →
    (∀ i, attempt ≤ i → i ≤ retriesN → isFail (net i) = true) →
    fetchLoop net url retriesN delay attempt fuel =
      (altTrace url delay attempt fuel, Except.ok []) := by
  intro fuel
  induction fuel with
  | zero => intro attempt h1 _ _; omega
  | succ f ih =>
    intro attempt h1 hinv hall
    have hfa : isFail (net attempt) = true := hall attempt (Nat.le_refl _) (by omega)
    rw [fetchLoop_succ_fail net url retriesN delay attempt f hfa]
    cases f with
    | zero =>
      have hnl : ¬ attempt < retriesN := by omega
      rw [if_neg hnl]
      rfl
    | succ f' =>
      have hlt : attempt < retriesN := by omega
      rw [if_pos hlt]
      have step := ih (attempt + 1) (by omega) (by omega)
        (fun i hi1 hi2 => hall i (by omega) hi2)
      rw [step]
      rfl

/-- Trace `altTrace` holds exactly `k` GET events. -/
theorem countGets_altTrace (url : String) (delay : Int) :
    ∀ k attempt, countGets (altTrace url delay attempt k) = k
  | 0, _ => rfl
  | 1, _ => rfl
  | k + 2, attempt => by
    have ih := countGets_altTrace url delay (k + 1) (attempt + 1)
    simp [altTrace, countGets, isGetEv, List.filter] at ih ⊢
    omega

/-- Trace `altTrace` holds exactly `k - 1` sleep events when `k ≥ 1`. -/
theorem countSleeps_altTrace (url : String) (delay : Int) :
    ∀ k attempt, 1 ≤ k → countSleeps (altTrace url delay attempt k) + 1 = k
  | 0, _, h => by omega
  | 1, _, _ => rfl
  | k + 2, attempt, _ => by
    have ih := countSleeps_altTrace url delay (k + 1) (attempt + 1) (by omega)
    simp [altTrace, countSleeps, isSleepEv, List.filter] at ih ⊢
    omega

/-- Every sleep of `altTrace` sleeps exactly `delay`. -/
theorem sleep_mem_altTrace (url : String) (delay : Int) :
    ∀ k attempt d, Ev.sleep d ∈ altTrace url delay attempt k → d = delay
  | 0, _, d => by simp [altTrace]
  | 1, _, d => by simp [altTrace]
  | k + 2, attempt, d => by
    intro h
    simp [altTrace] at h
    rcases h with h | h
    · exact h
    · exact sleep_mem_altTrace url delay (k + 1) (attempt + 1) d h

/-- Two networks agreeing from `attempt` on drive the loop identically. -/
theorem fetchLoop_congr (net net' : Nat → FetchOutcome) (url : String) (retriesN : Nat)
    (delay : Int) :
    ∀ fuel attempt, (∀ i, attempt ≤ i → net i = net' i) →
    fetchLoop net url retriesN delay attempt fuel =
      fetchLoop net' url retriesN delay attempt fuel := by
  intro fuel
  induction fuel with
  | zero => intro attempt _; rfl
  | succ f ih =>
    intro attempt hag
    have hstep := hag attempt (Nat.le_refl _)
    have hrec := ih (attempt + 1) (fun i hi => hag i (by omega))
    simp only [fetchLoop, hstep, hrec]

/-- Claim C6: for `retries ≥ 1`, the fetcher issues at most `retries` GET
attempts, sleeps exactly `delay` between consecutive attempts with no
backoff growth and never after the final attempt (the trace is an
alternation of GETs and single sleeps ending in a GET), and when every
attempt fails it runs exactly `retries` attempts and returns the empty
record list rather than an error. -/
theorem c6_fetch_retry_policy (net : Nat → FetchOutcome) (url : String)
    (retries delay : Int) (h : 1 ≤ retries) :
    (∃ k, 1 ≤ k ∧ k ≤ retries.toNat ∧
       (get_good_practices net url retries delay).1 = altTrace url delay 1 k) ∧
    countGets (get_good_practices net url retries delay).1 ≤ retries.toNat ∧
    countSleeps (get_good_practices net url retries delay).1 + 1 =
      countGets (get_good_practices net url retries delay).1 ∧
    (∀ d, Ev.sleep d ∈ (get_good_practices net url retries delay).1 → d = delay) ∧
    ((∀ i, 1 ≤ i → i ≤ retries.toNat → isFail (net i) = true) →
       get_good_practices net url retries delay =
         (altTrace url delay 1 retries.toNat, Except.ok [])) := by
  have h1 : 1 ≤ retries.toNat := by omega
  have hgp : get_good_practices net url retries delay =
      fetchLoop net url retries.toNat delay 1 retries.toNat := rfl
  obtain ⟨k, hk1, hk2, htr⟩ :=
    fetchLoop_shape net url retries.toNat delay retries.toNat 1 h1 (by omega)
  refine ⟨⟨k, hk1, hk2, by rw [hgp, htr]⟩, ?_, ?_, ?_, ?_⟩
  · rw [hgp, htr, countGets_altTrace]
    exact hk2
  · rw [hgp, htr, countGets_altTrace]
    exact countSleeps_altTrace url delay k 1 hk1
  · intro d hd
    rw [hgp, htr] at hd
    exact sleep_mem_altTrace url delay k 1 d hd
  · intro hall
    rw [hgp]
    exact fetchLoop_exhaust net url retries.toNat delay retries.toNat 1 h1 (by omega) hall

/-- Claim C6, witness: a network that always raises drives a 2-retry fetch
through both attempts and yields the empty result. -/
theorem c6_fetch_retry_policy_witness :
    get_good_practices (fun _ => FetchOutcome.exn) "u" 2 7 =
      (altTrace "u" 7 1 (Int.toNat 2), Except.ok []) :=
  (c6_fetch_retry_policy (fun _ => FetchOutcome.exn) "u" 2 7 (by decide)).2.2.2.2
    (fun i _ _ => rfl)

/-- Claim C8, counterexample: a 201 response — a 2xx success status — with
a parseable card body is treated as a failed attempt: the loop retries
(two GETs with a sleep between) and ends with the failure result `[]`
instead of handing the body to the extractor (which would yield one
record). -/
theorem c8_counterexample :
    get_good_practices
        (fun i => if i = 1 then FetchOutcome.resp 201 [cardRel] else FetchOutcome.exn)
        "u" 2 0 =
      ([Ev.get "u" 1, Ev.sleep 0, Ev.get "u" 2], Except.ok []) ∧
    parse_practices [cardRel] = Except.ok [recRel] ∧
    ([recRel] : List GoodPractice) ≠ [] := by decide

/-- Claim C8 (amended): within a single fetch attempt only status exactly
200 is success — its body is handed to the extractor and returned at once —
while any other status, other 2xx codes included, is a soft failure for
that attempt, treated exactly like a transport exception. -/
theorem c8_status_check (net : Nat → FetchOutcome) (url : String) (retries delay : Int)
    (h : 1 ≤ retries) :
    (∀ body, net 1 = FetchOutcome.resp 200 body →
       get_good_practices net url retries delay = ([Ev.get url 1], parse_practices body)) ∧
    (∀ status body, status ≠ 200 → net 1 = FetchOutcome.resp status body →
       get_good_practices net url retries delay =
         get_good_practices (fun i => if i = 1 then FetchOutcome.exn else net i)
           url retries delay) := by
  obtain ⟨f, hf⟩ : ∃ f, retries.toNat = f + 1 := ⟨retries.toNat - 1, by omega⟩
  constructor
  · intro body hb
    rw [get_good_practices, hf, fetchLoop_succ_success net url (f + 1) delay 1 f body hb]
  · intro status body hst hb
    have hfail : isFail (net 1) = true := by
      rw [hb]
      simpa [isFail] using hst
    have hfail' : isFail ((fun i => if i = 1 then FetchOutcome.exn else net i) 1) = true := by
      simp [isFail]
    rw [get_good_practices, get_good_practices, hf,
      fetchLoop_succ_fail net url (f + 1) delay 1 f hfail,
      fetchLoop_succ_fail _ url (f + 1) delay 1 f hfail']
    have hcong := fetchLoop_congr net (fun i => if i = 1 then FetchOutcome.exn else net i)
      url (f + 1) delay f 2
      (fun i hi => by
        have hne : i ≠ 1 := by omega
        simp [hne])
    rw [hcong]

/-- Claim C8, witness: a 500 response on the only attempt behaves exactly
as a transport exception would. -/
theorem c8_status_check_witness :
    get_good_practices (fun i => if i = 1 then FetchOutcome.resp 500 [] else FetchOutcome.exn)
        "u" 1 0 =
      get_good_practices (fun i => if i = 1 then FetchOutcome.exn
        else (fun j => if j = 1 then FetchOutcome.resp 500 [] else FetchOutcome.exn) i)
        "u" 1 0 :=
  (c8_status_check (fun i => if i = 1 then FetchOutcome.resp 500 [] else FetchOutcome.exn)
    "u" 1 0 (by decide)).2 500 [] (by decide) rfl
